import Mathlib

/-!
Shallow embedding of the measurement / annotation-linking geometry engine of
the 3d-inspector-modular repository (THREE.js based). JS numbers are modelled
as exact real numbers; DOM/visual side effects (spheres, tube meshes, label
divs, console logging) are omitted, since they never feed back into the
geometric state. Source files: src/js/scene.js (MeasurementSystem),
src/js/reference.js (second half, utils.js: class Utils), and the annotation
system (src/unnamed/part_001, annotation.js: AnnotationSystem).
-/

namespace Inspector3D

/-- THREE.Vector3: a 3D coordinate with JS-number components modelled as reals. -/
structure Vector3 where
  x : ℝ
  y : ℝ
  z : ℝ

/-- Componentwise subtraction, as in THREE.Vector3.subVectors. -/
def Vector3.sub (a b : Vector3) : Vector3 :=
  ⟨a.x - b.x, a.y - b.y, a.z - b.z⟩

/-- THREE.Vector3.cross: the standard cross product. -/
def Vector3.cross (a b : Vector3) : Vector3 :=
  ⟨a.y * b.z - a.z * b.y, a.z * b.x - a.x * b.z, a.x * b.y - a.y * b.x⟩

/-- THREE.Vector3.length: Euclidean norm. -/
noncomputable def Vector3.length (v : Vector3) : ℝ :=
  Real.sqrt (v.x * v.x + v.y * v.y + v.z * v.z)

/-- THREE.Vector3.distanceTo: Euclidean distance between two points. -/
noncomputable def Vector3.distanceTo (a b : Vector3) : ℝ :=
  Real.sqrt ((a.x - b.x) * (a.x - b.x) + (a.y - b.y) * (a.y - b.y) +
    (a.z - b.z) * (a.z - b.z))

/-- Helper for evaluating square roots of concrete numerals. -/
theorem real_sqrt_eval (a b : ℝ) (hb : 0 ≤ b) (h : b * b = a) :
    Real.sqrt a = b := by
  rw [← h]
  exact Real.sqrt_mul_self hb

namespace Utils

/-- Utils.calculateDistance (utils.js): point1.distanceTo(point2). -/
noncomputable def calculateDistance (point1 point2 : Vector3) : ℝ :=
  point1.distanceTo point2

/-- Utils.calculatePolygonArea (utils.js): returns 0 for fewer than 3 points,
otherwise fan-triangulates from points[0]: for i from 1 to n-2 it accumulates
half the magnitude of the cross product of (points[i] - basePoint) and
(points[i+1] - basePoint). The consecutive pairs (points[i], points[i+1]) for
i = 1 .. n-2 are exactly the adjacent pairs of the tail of the list. -/
noncomputable def calculatePolygonArea (points : List Vector3) : ℝ :=
  if points.length < 3 then 0
  else
    match points with
    | [] => 0
    | basePoint :: rest =>
        (((rest.zip rest.tail).map (fun e =>
          ((e.1.sub basePoint).cross (e.2.sub basePoint)).length / 2))).sum

/-- Loop body of Utils.isPointInPolygon: the list holds the edge pairs
(polygonPoints[i], polygonPoints[j]) in iteration order, where j is the
predecessor index (j = i - 1, and j = n - 1 for i = 0); the Bool accumulator
is the parity flag named inside in the source. The source condition
((zi > z) !== (zj > z)) && (x < (xj - xi) * (z - zi) / (zj - zi) + xi)
is rendered with !== on the two comparison results as a negated iff. -/
noncomputable def inPolyLoop (x z : ℝ) : List (Vector3 × Vector3) → Bool → Bool
  | [], inside => inside
  | e :: rest, inside =>
      inPolyLoop x z rest
        (if (¬ ((e.1.z > z) ↔ (e.2.z > z))) ∧
            x < (e.2.x - e.1.x) * (z - e.1.z) / (e.2.z - e.1.z) + e.1.x
         then !inside else inside)

/-- The list of predecessor vertices: for the loop of isPointInPolygon, j
starts at the last index and then trails i by one. The zero vector default of
getLast? is never used on nonempty input. -/
def prevVertexList (l : List Vector3) : List Vector3 :=
  match l.getLast? with
  | none => []
  | some last => last :: l.dropLast

/-- Utils.isPointInPolygon (utils.js): ray-casting parity test on the (x, z)
projection; returns false for polygons with fewer than 3 points. Only point.x
and point.z are read from the query point (const x = point.x, z = point.z). -/
noncomputable def isPointInPolygon (point : Vector3) (polygonPoints : List Vector3) : Bool :=
  if polygonPoints.length < 3 then false
  else inPolyLoop point.x point.z (polygonPoints.zip (prevVertexList polygonPoints)) false

end Utils

/-- THREE column-major 4x4 matrix, with fields named by their index in the
elements array (e0 .. e15); only the entries that applyMatrix4 reads matter. -/
structure Matrix4 where
  e0 : ℝ
  e1 : ℝ
  e2 : ℝ
  e3 : ℝ
  e4 : ℝ
  e5 : ℝ
  e6 : ℝ
  e7 : ℝ
  e8 : ℝ
  e9 : ℝ
  e10 : ℝ
  e11 : ℝ
  e12 : ℝ
  e13 : ℝ
  e14 : ℝ
  e15 : ℝ

/-- The identity Matrix4 (THREE.Matrix4 default). -/
def Matrix4.identity : Matrix4 :=
  ⟨1, 0, 0, 0, 0, 1, 0, 0, 0, 0, 1, 0, 0, 0, 0, 1⟩

/-- THREE.Vector3.applyMatrix4: multiply by the matrix and divide by the
resulting homogeneous w coordinate. -/
noncomputable def Vector3.applyMatrix4 (v : Vector3) (m : Matrix4) : Vector3 :=
  let w := 1 / (m.e3 * v.x + m.e7 * v.y + m.e11 * v.z + m.e15)
  ⟨(m.e0 * v.x + m.e4 * v.y + m.e8 * v.z + m.e12) * w,
   (m.e1 * v.x + m.e5 * v.y + m.e9 * v.z + m.e13) * w,
   (m.e2 * v.x + m.e6 * v.y + m.e10 * v.z + m.e14) * w⟩

/-- The camera data Utils.projectToScreen consumes: THREE.Camera carries its
inverse world matrix and projection matrix; position is the camera's world
position (used by the specification's distance-to-camera visibility test). -/
structure Camera where
  matrixWorldInverse : Matrix4
  projectionMatrix : Matrix4
  position : Vector3

/-- THREE.Vector3.project(camera): apply matrixWorldInverse, then the
projection matrix (each with perspective divide), yielding NDC coordinates. -/
noncomputable def Vector3.project (v : Vector3) (camera : Camera) : Vector3 :=
  (v.applyMatrix4 camera.matrixWorldInverse).applyMatrix4 camera.projectionMatrix

/-- The record Utils.projectToScreen returns: it has exactly the fields x and
y (the source returns the object literal { x, y }). -/
structure ScreenPos where
  x : ℝ
  y : ℝ

namespace Utils

/-- Utils.projectToScreen (utils.js): project the point through the camera to
NDC, then convert to pixel coordinates against the viewport size (renderer
client size, or the window size when no renderer is passed; both are modelled
by the width and height arguments). -/
noncomputable def projectToScreen (point : Vector3) (camera : Camera)
    (width height : ℝ) : ScreenPos :=
  let screenPos := point.project camera
  ⟨(screenPos.x * 0.5 + 0.5) * width, (-screenPos.y * 0.5 + 0.5) * height⟩

end Utils

/-- A measurement entity as created by MeasurementSystem.createNewMeasurement
(scene.js). The purely visual children (spheres, lines, labels) and the
createdAt timestamp are omitted: they never influence the geometric state. -/
structure Measurement where
  id : Nat
  points : List Vector3
  color : Nat
  isClosed : Bool
  isLocked : Bool
  totalDistance : ℝ
  area : ℝ

/-- Fallback measurement used for list lookups whose index is known to be in
range on every reachable input. -/
def Measurement.default : Measurement :=
  ⟨0, [], 0, false, false, 0, 0⟩

namespace MeasurementSystem

/-- The fixed MEASUREMENT_COLORS palette of scene.js. -/
def MEASUREMENT_COLORS : List Nat :=
  [0xff4444, 0x44ff44, 0x4444ff, 0xffff44, 0xff44ff,
   0x44ffff, 0xff8844, 0x88ff44, 0x4488ff, 0xff4488]

/-- The loop of updateMeasurementDistance: for i from 1 to length - 1 add the
distance between points[i-1] and points[i], i.e. sum the consecutive pair
distances. -/
noncomputable def segmentSum : List Vector3 → ℝ
  | a :: b :: rest => Utils.calculateDistance a b + segmentSum (b :: rest)
  | _ => 0

/-- The closing-segment distance of updateMeasurementDistance: from
points[length - 1] back to points[0] (the zero-vector defaults are never used
because the call site guards length at least 3). -/
noncomputable def closingDistance (points : List Vector3) : ℝ :=
  Utils.calculateDistance (points.getLastD ⟨0, 0, 0⟩) (points.headD ⟨0, 0, 0⟩)

/-- MeasurementSystem.updateMeasurementDistance (scene.js lines 856-871): sum
the consecutive segment distances, add the closing segment when isClosed and
the point count is at least 3, and store the result in totalDistance. -/
noncomputable def updateMeasurementDistance (measurement : Measurement) : Measurement :=
  { measurement with
    totalDistance :=
      segmentSum measurement.points +
        (if measurement.isClosed = true ∧ 3 ≤ measurement.points.length
         then closingDistance measurement.points else 0) }

/-- MeasurementSystem.updateMeasurementVisuals (scene.js lines 722-745),
restricted to its effect on the entity state: it returns early when the point
count is below 2 (recomputing nothing), recomputes area only when isClosed
and the point count is at least 3, and always ends by calling
updateMeasurementDistance. Line/label/scene manipulation is visual only. -/
noncomputable def updateMeasurementVisuals (measurement : Measurement) : Measurement :=
  if measurement.points.length < 2 then measurement
  else
    updateMeasurementDistance
      (if measurement.isClosed = true ∧ 3 ≤ measurement.points.length
       then { measurement with area := Utils.calculatePolygonArea measurement.points }
       else measurement)

/-- MeasurementSystem.addPointToMeasurement (scene.js lines 666-690): a no-op
(with a logged warning) on a locked measurement, otherwise push a clone of
the point; sphere creation is visual only. -/
def addPointToMeasurement (measurement : Measurement) (point : Vector3) : Measurement :=
  if measurement.isLocked = true then measurement
  else { measurement with points := measurement.points ++ [point] }

/-- MeasurementSystem.deletePointFromMeasurement (scene.js lines 695-717): a
no-op on a locked measurement; a no-op when pointIndex is negative or not
below the point count; otherwise splice out the point (and its sphere) and
run updateMeasurementVisuals. The index is an Int because the caller passes
JS numbers that may be negative. -/
noncomputable def deletePointFromMeasurement (measurement : Measurement)
    (pointIndex : Int) : Measurement :=
  if measurement.isLocked = true then measurement
  else if pointIndex < 0 ∨ (measurement.points.length : Int) ≤ pointIndex then measurement
  else
    updateMeasurementVisuals
      { measurement with points := measurement.points.eraseIdx pointIndex.toNat }

/-- The add-point pipeline of MeasurementSystem.handleClick (scene.js lines
474-478): addPointToMeasurement followed by updateMeasurementVisuals (which
runs even when the add was blocked by the lock). -/
noncomputable def addPointPipeline (measurement : Measurement) (point : Vector3) : Measurement :=
  updateMeasurementVisuals (addPointToMeasurement measurement point)

/-- The point-move pipeline of MeasurementSystem.handleMouseMove (scene.js
lines 518-530): copy the intersection point into points[editingPointIndex]
and run updateMeasurementVisuals. On every reachable call the index is a
valid index of the point list (it came from findClosestPoint), which the
out-of-range no-op of List.set matches. -/
noncomputable def movePointPipeline (measurement : Measurement) (pointIndex : Nat)
    (point : Vector3) : Measurement :=
  updateMeasurementVisuals
    { measurement with points := measurement.points.set pointIndex point }

end MeasurementSystem

/-- The mutable state of the MeasurementSystem instance (scene.js
constructor): the measurement collection, the current-measurement index, the
id counter, the point-editing sub-state, and whether measurement mode is
active. controlsEnabled models the enabled flag of the orbit controls that
startEditing and stopEditing toggle through window.inspector3D.controls
(modelled as present, matching a fully initialised session). -/
structure SystemState where
  active : Bool
  measurements : List Measurement
  currentMeasurementIndex : Int
  measurementIdCounter : Nat
  isEditing : Bool
  editingPointIndex : Int
  editingMeasurementIndex : Int
  controlsEnabled : Bool

namespace MeasurementSystem

/-- The constructor state of MeasurementSystem, with orbit controls enabled
(their initial state). -/
def initialState : SystemState :=
  { active := false
    measurements := []
    currentMeasurementIndex := -1
    measurementIdCounter := 1
    isEditing := false
    editingPointIndex := -1
    editingMeasurementIndex := -1
    controlsEnabled := true }

/-- MeasurementSystem.getCurrentMeasurement (scene.js lines 656-661). -/
def getCurrentMeasurement (s : SystemState) : Option Measurement :=
  if 0 ≤ s.currentMeasurementIndex ∧
      s.currentMeasurementIndex < (s.measurements.length : Int)
  then some (s.measurements.getD s.currentMeasurementIndex.toNat Measurement.default)
  else none

/-- MeasurementSystem.createNewMeasurement (scene.js lines 631-651): push a
fresh open, unlocked measurement with the next palette color, make it
current, and bump the id counter. -/
def createNewMeasurement (s : SystemState) : SystemState :=
  let m : Measurement :=
    { id := s.measurementIdCounter
      points := []
      color := MEASUREMENT_COLORS.getD (s.measurements.length % MEASUREMENT_COLORS.length) 0
      isClosed := false
      isLocked := false
      totalDistance := 0
      area := 0 }
  { s with
    measurements := s.measurements ++ [m]
    measurementIdCounter := s.measurementIdCounter + 1
    currentMeasurementIndex := (s.measurements.length : Int) }

/-- MeasurementSystem.findClosestPoint (scene.js lines 570-594): scan every
point of every measurement in entity-then-index order, tracking the strictly
closest point below the running best distance (initially maxDistance); the
result identifies the measurement and point by index (the source returns the
measurement object itself; its list index is what indexOf later recovers). -/
noncomputable def findClosestPoint (measurements : List Measurement)
    (position : Vector3) (maxDistance : ℝ) : Option (Nat × Nat) :=
  (measurements.enum.foldl
    (fun acc mi =>
      mi.2.points.enum.foldl
        (fun acc2 pj =>
          if position.distanceTo pj.2 < acc2.2
          then (some (mi.1, pj.1), position.distanceTo pj.2)
          else acc2)
        acc)
    ((none, maxDistance) : Option (Nat × Nat) × ℝ)).1

/-- Replace the measurement at a list index (JS mutates the measurement
object in place; the object sits at this index of the measurements array). -/
def setMeasurement (s : SystemState) (i : Nat) (m : Measurement) : SystemState :=
  { s with measurements := s.measurements.set i m }

/-- MeasurementSystem.handleDeletePoint (scene.js lines 485-495): on a
surface hit, delete the closest measurement point within tolerance 0.1. -/
noncomputable def handleDeletePoint (s : SystemState) (hit : Option Vector3) : SystemState :=
  match hit with
  | none => s
  | some p =>
    match findClosestPoint s.measurements p 0.1 with
    | none => s
    | some mp =>
        setMeasurement s mp.1
          (deletePointFromMeasurement
            (s.measurements.getD mp.1 Measurement.default) (mp.2 : Int))

/-- MeasurementSystem.handleClick (scene.js lines 454-480): ignored while
editing; Shift-click deletes the nearest point; otherwise, on a surface hit,
append the point to the current measurement (creating one when none is
current) and update its visuals. hit is the result of getIntersectionPoint
(the raycast against the model, an external collaborator). -/
noncomputable def handleClick (s : SystemState) (hit : Option Vector3)
    (shiftKey : Bool) : SystemState :=
  if s.isEditing = true then s
  else if shiftKey = true then handleDeletePoint s hit
  else
    match hit with
    | none => s
    | some p =>
      match getCurrentMeasurement s with
      | some m =>
          setMeasurement s s.currentMeasurementIndex.toNat (addPointPipeline m p)
      | none =>
          let s1 := createNewMeasurement s
          setMeasurement s1 s1.currentMeasurementIndex.toNat
            (addPointPipeline
              (s1.measurements.getD s1.currentMeasurementIndex.toNat Measurement.default) p)

/-- MeasurementSystem.startEditing (scene.js lines 599-610): record the
editing indices, set isEditing, and disable the orbit controls. No lock check
is performed. -/
def startEditing (s : SystemState) (measurementIndex pointIndex : Nat) : SystemState :=
  { s with
    isEditing := true
    editingPointIndex := (pointIndex : Int)
    editingMeasurementIndex := (measurementIndex : Int)
    controlsEnabled := false }

/-- MeasurementSystem.stopEditing (scene.js lines 615-626): clear the editing
sub-state and re-enable the orbit controls. -/
def stopEditing (s : SystemState) : SystemState :=
  { s with
    isEditing := false
    editingPointIndex := -1
    editingMeasurementIndex := -1
    controlsEnabled := true }

/-- MeasurementSystem.handleMouseDown (scene.js lines 500-513): with Ctrl
held and a surface hit, start editing the closest point within tolerance. -/
noncomputable def handleMouseDown (s : SystemState) (ctrlKey : Bool)
    (hit : Option Vector3) : SystemState :=
  if ctrlKey = false then s
  else
    match hit with
    | none => s
    | some p =>
      match findClosestPoint s.measurements p 0.1 with
      | none => s
      | some mp => startEditing s mp.1 mp.2

/-- MeasurementSystem.handleMouseMove (scene.js lines 518-530): while
editing, on a surface hit, copy the hit into the edited point and update the
measurement visuals. No lock check is performed. -/
noncomputable def handleMouseMove (s : SystemState) (hit : Option Vector3) : SystemState :=
  if s.isEditing = false then s
  else
    match hit with
    | none => s
    | some p =>
        let mi := s.editingMeasurementIndex.toNat
        setMeasurement s mi
          (movePointPipeline (s.measurements.getD mi Measurement.default)
            s.editingPointIndex.toNat p)

/-- MeasurementSystem.handleMouseUp (scene.js lines 535-539). -/
def handleMouseUp (s : SystemState) : SystemState :=
  if s.isEditing = true then stopEditing s else s

/-- MeasurementSystem.activate (scene.js lines 435-439); the readout is UI. -/
def activate (s : SystemState) : SystemState :=
  { s with active := true }

/-- MeasurementSystem.deactivate (scene.js lines 444-449): clear the active
flag and stop any editing in progress. -/
def deactivate (s : SystemState) : SystemState :=
  stopEditing { s with active := false }

/-- MeasurementSystem.closeMeasurement (scene.js lines 876-892): a no-op
without a current measurement, with fewer than 3 points, or on a locked
measurement; otherwise set isClosed and update the visuals (computing the
area). -/
noncomputable def closeMeasurement (s : SystemState) : SystemState :=
  match getCurrentMeasurement s with
  | none => s
  | some m =>
    if m.points.length < 3 then s
    else if m.isLocked = true then s
    else
      setMeasurement s s.currentMeasurementIndex.toNat
        (updateMeasurementVisuals { m with isClosed := true })

end MeasurementSystem

/-- The raw input events the MeasurementSystem reacts to, with the surface
hit produced by getIntersectionPoint carried as a payload (the raycast
against the model is an external collaborator), plus the mode changes and
the close-measurement UI action. -/
inductive MeasureEvent
  | click (hit : Option Vector3) (shiftKey : Bool)
  | mouseDown (ctrlKey : Bool) (hit : Option Vector3)
  | mouseMove (hit : Option Vector3)
  | mouseUp
  | activateMode
  | deactivateMode
  | closeCurrent

namespace MeasurementSystem

/-- Event dispatch, including the listener guards of setupEventListeners
(scene.js lines 403-430): click fires only while active; mousedown only while
active with Ctrl held; mousemove and mouseup only while active and editing. -/
noncomputable def step (s : SystemState) : MeasureEvent → SystemState
  | .click hit shiftKey => if s.active = true then handleClick s hit shiftKey else s
  | .mouseDown ctrlKey hit =>
      if s.active = true ∧ ctrlKey = true then handleMouseDown s ctrlKey hit else s
  | .mouseMove hit =>
      if s.active = true ∧ s.isEditing = true then handleMouseMove s hit else s
  | .mouseUp =>
      if s.active = true ∧ s.isEditing = true then handleMouseUp s else s
  | .activateMode => activate s
  | .deactivateMode => deactivate s
  | .closeCurrent => closeMeasurement s

/-- A run of the system from the constructor state through a list of events. -/
noncomputable def run (events : List MeasureEvent) : SystemState :=
  events.foldl step initialState

end MeasurementSystem

/-- The relationship kinds of a measurement link (annotation.js). -/
inductive Relationship
  | inside
  | nearLine

/-- The link record findEnclosingMeasurement returns: the enclosing or nearby
measurement, the relationship kind, and the distance. -/
structure MeasurementLink where
  measurement : Measurement
  relationship : Relationship
  distance : ℝ

namespace Utils

/-- The distancePointToLine member looked up on Utils by
AnnotationSystem.getDistanceToMeasurementLines (annotation.js lines 428 and
434). The Utils class of utils.js (the second part of src/js/reference.js,
lines 1014-1436) defines no such static method, so the property access
evaluates to undefined: the lookup is modelled as none. Calling it throws a
TypeError. -/
noncomputable def distancePointToLineMember : Option (Vector3 → Vector3 → Vector3 → ℝ) :=
  none

end Utils

namespace AnnotationSystem

/-- AnnotationSystem.getDistanceToMeasurementLines (annotation.js lines
421-443): returns Infinity (modelled as Option none inside Except.ok) for
fewer than 2 points; otherwise the first loop iteration (i = 1, which always
runs) calls Utils.distancePointToLine. Because that member is undefined the
call throws, modelled as Except.error; the dead some-branch keeps the
intended minimum over the consecutive segments and, for a closed measurement
with at least 3 points, the closing segment. -/
noncomputable def getDistanceToMeasurementLines (point : Vector3)
    (measurement : Measurement) : Except Unit (Option ℝ) :=
  if measurement.points.length < 2 then .ok none
  else
    match Utils.distancePointToLineMember with
    | none => .error ()
    | some f =>
        let segDists := (measurement.points.zip measurement.points.tail).map
          (fun e => f point e.1 e.2)
        let closing :=
          if measurement.isClosed = true ∧ 3 ≤ measurement.points.length
          then [f point (measurement.points.getLastD ⟨0, 0, 0⟩)
                  (measurement.points.headD ⟨0, 0, 0⟩)]
          else []
        .ok ((segDists ++ closing).foldl (fun acc d =>
          some (match acc with | none => d | some b => min b d)) none)

/-- The loop of AnnotationSystem.findEnclosingMeasurement (annotation.js
lines 391-413), carrying bestMatch and bestDistance (none models the
JavaScript Infinity start value): an inside hit on a closed measurement with
at least 3 points returns immediately; otherwise the line distance is
computed (which throws, propagated as Except.error, whenever the measurement
has at least 2 points) and a strictly better distance below 0.5 replaces the
best near-line candidate. -/
noncomputable def findLoop (point : Vector3) :
    List Measurement → Option MeasurementLink → Option ℝ →
    Except Unit (Option MeasurementLink)
  | [], bestMatch, _ => .ok bestMatch
  | m :: rest, bestMatch, bestDistance =>
    if m.isClosed = true ∧ 3 ≤ m.points.length ∧
        Utils.isPointInPolygon point m.points = true
    then .ok (some ⟨m, .inside, 0⟩)
    else
      match getDistanceToMeasurementLines point m with
      | .error e => .error e
      | .ok none => findLoop point rest bestMatch bestDistance
      | .ok (some d) =>
        match bestDistance with
        | none =>
          if d < 0.5
          then findLoop point rest (some ⟨m, .nearLine, d⟩) (some d)
          else findLoop point rest bestMatch bestDistance
        | some b =>
          if d < 0.5 ∧ d < b
          then findLoop point rest (some ⟨m, .nearLine, d⟩) (some d)
          else findLoop point rest bestMatch (some b)

/-- AnnotationSystem.findEnclosingMeasurement (annotation.js lines 381-416),
with the measurement collection passed explicitly (the source reads it from
the global registry window.inspector3D.measurement and returns null when the
registry is absent). -/
noncomputable def findEnclosingMeasurement (point : Vector3)
    (measurements : List Measurement) : Except Unit (Option MeasurementLink) :=
  findLoop point measurements none none

end AnnotationSystem

/-!
Concrete entities and evaluation lemmas shared by several claims.
-/

/-- A fresh measurement as createNewMeasurement builds it (first palette color). -/
def mFresh : Measurement :=
  { id := 1, points := [], color := 0xff4444, isClosed := false, isLocked := false,
    totalDistance := 0, area := 0 }

/-- The 3-4-5 right triangle of the spec, built through the add-point pipeline. -/
noncomputable def mTri : Measurement :=
  MeasurementSystem.addPointPipeline
    (MeasurementSystem.addPointPipeline
      (MeasurementSystem.addPointPipeline mFresh ⟨0, 0, 0⟩) ⟨3, 0, 0⟩) ⟨0, 0, 4⟩

/-- A session whose current measurement is the triangle. -/
noncomputable def sTri : SystemState :=
  { MeasurementSystem.initialState with measurements := [mTri], currentMeasurementIndex := 0 }

/-- The triangle after closeMeasurement. -/
noncomputable def mTriClosed : Measurement :=
  ((MeasurementSystem.closeMeasurement sTri).measurements.getD 0 Measurement.default)

/-- The closed triangle after deleting point 0 (leaving 2 points). -/
noncomputable def mAfterDelete : Measurement :=
  MeasurementSystem.deletePointFromMeasurement mTriClosed 0

/-- A 2-point open measurement built through the add-point pipeline. -/
noncomputable def mSeg : Measurement :=
  MeasurementSystem.addPointPipeline
    (MeasurementSystem.addPointPipeline mFresh ⟨0, 0, 0⟩) ⟨3, 0, 0⟩

/-- The 2-point measurement after deleting point 1 (leaving 1 point). -/
noncomputable def mSeg1 : Measurement :=
  MeasurementSystem.deletePointFromMeasurement mSeg 1

theorem dist_eval_3 : Utils.calculateDistance ⟨0, 0, 0⟩ ⟨3, 0, 0⟩ = 3 := by
  have h : Real.sqrt 9 = 3 := real_sqrt_eval 9 3 (by norm_num) (by norm_num)
  norm_num [Utils.calculateDistance, Vector3.distanceTo]
  norm_num [h]

theorem dist_eval_5 : Utils.calculateDistance ⟨3, 0, 0⟩ ⟨0, 0, 4⟩ = 5 := by
  have h : Real.sqrt 25 = 5 := real_sqrt_eval 25 5 (by norm_num) (by norm_num)
  norm_num [Utils.calculateDistance, Vector3.distanceTo]
  norm_num [h]

theorem dist_eval_4 : Utils.calculateDistance ⟨0, 0, 4⟩ ⟨0, 0, 0⟩ = 4 := by
  have h : Real.sqrt 16 = 4 := real_sqrt_eval 16 4 (by norm_num) (by norm_num)
  norm_num [Utils.calculateDistance, Vector3.distanceTo]
  norm_num [h]

theorem dist_eval_5b : Utils.calculateDistance ⟨0, 0, 4⟩ ⟨3, 0, 0⟩ = 5 := by
  have h : Real.sqrt 25 = 5 := real_sqrt_eval 25 5 (by norm_num) (by norm_num)
  norm_num [Utils.calculateDistance, Vector3.distanceTo]
  norm_num [h]

theorem triangle_area_eval :
    Utils.calculatePolygonArea [⟨0, 0, 0⟩, ⟨3, 0, 0⟩, ⟨0, 0, 4⟩] = 6 := by
  have h : Real.sqrt 144 = 12 := real_sqrt_eval 144 12 (by norm_num) (by norm_num)
  norm_num [Utils.calculatePolygonArea, Vector3.sub, Vector3.cross, Vector3.length]
  norm_num [h]

theorem mTri_eval :
    mTri = { id := 1, points := [⟨0, 0, 0⟩, ⟨3, 0, 0⟩, ⟨0, 0, 4⟩], color := 0xff4444,
             isClosed := false, isLocked := false, totalDistance := 8, area := 0 } := by
  simp only [mTri, mFresh, MeasurementSystem.addPointPipeline,
    MeasurementSystem.addPointToMeasurement, MeasurementSystem.updateMeasurementVisuals,
    MeasurementSystem.updateMeasurementDistance, MeasurementSystem.segmentSum,
    MeasurementSystem.closingDistance]
  norm_num [dist_eval_3, dist_eval_5]

theorem mTriClosed_eval :
    mTriClosed = { id := 1, points := [⟨0, 0, 0⟩, ⟨3, 0, 0⟩, ⟨0, 0, 4⟩], color := 0xff4444,
                   isClosed := true, isLocked := false, totalDistance := 12, area := 6 } := by
  simp only [mTriClosed, sTri, MeasurementSystem.closeMeasurement,
    MeasurementSystem.getCurrentMeasurement, MeasurementSystem.setMeasurement,
    MeasurementSystem.initialState, mTri_eval]
  norm_num [MeasurementSystem.updateMeasurementVisuals,
    MeasurementSystem.updateMeasurementDistance, MeasurementSystem.segmentSum,
    MeasurementSystem.closingDistance, triangle_area_eval, dist_eval_3, dist_eval_5, dist_eval_4]

theorem mAfterDelete_eval :
    mAfterDelete = { id := 1, points := [⟨3, 0, 0⟩, ⟨0, 0, 4⟩], color := 0xff4444,
                     isClosed := true, isLocked := false, totalDistance := 5, area := 6 } := by
  simp only [mAfterDelete, mTriClosed_eval, MeasurementSystem.deletePointFromMeasurement]
  norm_num [MeasurementSystem.updateMeasurementVisuals,
    MeasurementSystem.updateMeasurementDistance, MeasurementSystem.segmentSum,
    MeasurementSystem.closingDistance, dist_eval_5]

theorem mSeg_eval :
    mSeg = { id := 1, points := [⟨0, 0, 0⟩, ⟨3, 0, 0⟩], color := 0xff4444,
             isClosed := false, isLocked := false, totalDistance := 3, area := 0 } := by
  simp only [mSeg, mFresh, MeasurementSystem.addPointPipeline,
    MeasurementSystem.addPointToMeasurement, MeasurementSystem.updateMeasurementVisuals,
    MeasurementSystem.updateMeasurementDistance, MeasurementSystem.segmentSum,
    MeasurementSystem.closingDistance]
  norm_num [dist_eval_3]

theorem mSeg1_eval :
    mSeg1 = { id := 1, points := [⟨0, 0, 0⟩], color := 0xff4444,
              isClosed := false, isLocked := false, totalDistance := 3, area := 0 } := by
  simp only [mSeg1, mSeg_eval, MeasurementSystem.deletePointFromMeasurement]
  norm_num [MeasurementSystem.updateMeasurementVisuals]

/-!
Claim theorems.
-/

/-- C10: for every measurement and every out-of-range index (negative, or at
least the number of points), deletePointFromMeasurement is a total no-op: the
whole entity (points, closed flag, derived metrics) is returned unchanged. -/
theorem deletePoint_out_of_range_noop (m : Measurement) (pointIndex : Int)
    (h : pointIndex < 0 ∨ (m.points.length : Int) ≤ pointIndex) :
    MeasurementSystem.deletePointFromMeasurement m pointIndex = m := by
  unfold MeasurementSystem.deletePointFromMeasurement
  repeat' split
  all_goals first
    | rfl
    | (rename_i hc; exact absurd h hc)

/-- Witness for C10 at a concrete measurement and index 5. -/
theorem deletePoint_out_of_range_noop_witness :
    ((5 : Int) < 0 ∨ ((mFresh.points.length : Int) ≤ 5))
    ∧ MeasurementSystem.deletePointFromMeasurement mFresh 5 = mFresh :=
  ⟨Or.inr (by simp [mFresh]),
   deletePoint_out_of_range_noop mFresh 5 (Or.inr (by simp [mFresh]))⟩

/-- The unit square of the spec example, in the (x, z) plane. -/
def unitSquareXZ : List Vector3 :=
  [⟨0, 0, 0⟩, ⟨1, 0, 0⟩, ⟨1, 0, 1⟩, ⟨0, 0, 1⟩]

/-- C8: isPointInPolygon is a ray-casting parity test on the (x, z)
projection only: two query points agreeing in x and z give identical results
for every polygon; fewer than 3 polygon points give false; and on the unit
square in the (x, z) plane the point with (x, z) = (0.5, 0.5) is inside and
the point with (x, z) = (1.5, 0.5) is outside, for every y value. -/
theorem pointInPolygon_xz_parity :
    (∀ (polygonPoints : List Vector3) (p q : Vector3),
        p.x = q.x → p.z = q.z →
        Utils.isPointInPolygon p polygonPoints = Utils.isPointInPolygon q polygonPoints)
    ∧ (∀ (point : Vector3) (polygonPoints : List Vector3),
        polygonPoints.length < 3 →
        Utils.isPointInPolygon point polygonPoints = false)
    ∧ (∀ y : ℝ,
        Utils.isPointInPolygon ⟨0.5, y, 0.5⟩ unitSquareXZ = true
        ∧ Utils.isPointInPolygon ⟨1.5, y, 0.5⟩ unitSquareXZ = false) := by
  refine ⟨?_, ?_, ?_⟩
  · intro polygonPoints p q hx hz
    unfold Utils.isPointInPolygon
    rw [hx, hz]
  · intro point polygonPoints h
    unfold Utils.isPointInPolygon
    rw [if_pos h]
  · intro y
    constructor
    · norm_num [Utils.isPointInPolygon, unitSquareXZ, Utils.prevVertexList, Utils.inPolyLoop]
    · norm_num [Utils.isPointInPolygon, unitSquareXZ, Utils.prevVertexList, Utils.inPolyLoop]

/-- Witness for C8: the y-independence applied to two concrete points that
differ only in y, the degenerate case at the empty polygon, and the square
test at a concrete y. -/
theorem pointInPolygon_xz_parity_witness :
    Utils.isPointInPolygon ⟨0.5, 3, 0.5⟩ unitSquareXZ =
      Utils.isPointInPolygon ⟨0.5, 7, 0.5⟩ unitSquareXZ
    ∧ Utils.isPointInPolygon ⟨0.5, 3, 0.5⟩ [] = false
    ∧ Utils.isPointInPolygon ⟨1.5, 42, 0.5⟩ unitSquareXZ = false :=
  ⟨pointInPolygon_xz_parity.1 unitSquareXZ ⟨0.5, 3, 0.5⟩ ⟨0.5, 7, 0.5⟩ rfl rfl,
   pointInPolygon_xz_parity.2.1 ⟨0.5, 3, 0.5⟩ [] (by simp),
   (pointInPolygon_xz_parity.2.2 42).2⟩

/-- C7: for fewer than 3 points calculatePolygonArea returns 0 and
closeMeasurement is a no-op (the measurement stays open); and for the planar
right triangle with legs 3 and 4 the area is exactly 6 (so certainly within
1e-6 of 6.0). -/
theorem polygonArea_degenerate_and_close :
    (∀ points : List Vector3, points.length < 3 → Utils.calculatePolygonArea points = 0)
    ∧ (∀ (s : SystemState) (m : Measurement),
        MeasurementSystem.getCurrentMeasurement s = some m → m.points.length < 3 →
        MeasurementSystem.closeMeasurement s = s)
    ∧ Utils.calculatePolygonArea [⟨0, 0, 0⟩, ⟨3, 0, 0⟩, ⟨0, 0, 4⟩] = 6
    ∧ |Utils.calculatePolygonArea [⟨0, 0, 0⟩, ⟨3, 0, 0⟩, ⟨0, 0, 4⟩] - 6| ≤ 1e-6 := by
  refine ⟨?_, ?_, triangle_area_eval, ?_⟩
  · intro points h
    unfold Utils.calculatePolygonArea
    rw [if_pos h]
  · intro s m hm hlen
    unfold MeasurementSystem.closeMeasurement
    rw [hm]
    simp [if_pos hlen]
  · rw [triangle_area_eval]
    norm_num

/-- A session whose current measurement is the open 2-point segment. -/
noncomputable def sSeg : SystemState :=
  { MeasurementSystem.initialState with measurements := [mSeg], currentMeasurementIndex := 0 }

/-- Witness for C7: the degenerate branch at the empty list and the failing
close at a concrete 2-point session. -/
theorem polygonArea_degenerate_and_close_witness :
    Utils.calculatePolygonArea [] = 0
    ∧ MeasurementSystem.closeMeasurement sSeg = sSeg :=
  ⟨polygonArea_degenerate_and_close.1 [] (by simp),
   polygonArea_degenerate_and_close.2.1 sSeg mSeg rfl
     (by rw [mSeg_eval]; simp)⟩

/-- The derived-metric recomputation never moves, closes, or locks points. -/
theorem updateMeasurementVisuals_stable_fields (m : Measurement) :
    (MeasurementSystem.updateMeasurementVisuals m).points = m.points
    ∧ (MeasurementSystem.updateMeasurementVisuals m).isClosed = m.isClosed
    ∧ (MeasurementSystem.updateMeasurementVisuals m).isLocked = m.isLocked := by
  unfold MeasurementSystem.updateMeasurementVisuals MeasurementSystem.updateMeasurementDistance
  repeat' split
  all_goals simp

/-- The recomputation touches area only when the measurement is closed with
at least 3 points. -/
theorem updateMeasurementVisuals_area_stable (m : Measurement)
    (h : ¬ (m.isClosed = true ∧ 3 ≤ m.points.length)) :
    (MeasurementSystem.updateMeasurementVisuals m).area = m.area := by
  unfold MeasurementSystem.updateMeasurementVisuals MeasurementSystem.updateMeasurementDistance
  repeat' split
  all_goals first
    | simp
    | (rename_i hc; exact absurd hc h)

/-- Specification-side perimeter taken from the words of claim C2: the sum
of consecutive segment lengths, plus the closing segment exactly when the
measurement's closed flag is set (with no minimum point count). -/
noncomputable def claimPerimeter (points : List Vector3) (closed : Bool) : ℝ :=
  MeasurementSystem.segmentSum points +
    (if closed = true then MeasurementSystem.closingDistance points else 0)

/-- Counterexample to C2 as stated, on states reached through the sanctioned
operations: (1) deleting a point of the closed 3-4-5 triangle leaves a closed
2-point measurement whose stored totalDistance is 5, while the claimed
perimeter (with closing segment, because closed) is 10; (2) deleting down to
a single point skips the recomputation entirely, leaving the stale
totalDistance 3 where the claim demands 0. -/
theorem perimeter_claim_counterexample :
    mAfterDelete.isClosed = true
    ∧ mAfterDelete.totalDistance = 5
    ∧ claimPerimeter mAfterDelete.points mAfterDelete.isClosed = 10
    ∧ mAfterDelete.totalDistance ≠ claimPerimeter mAfterDelete.points mAfterDelete.isClosed
    ∧ mSeg1.points.length = 1
    ∧ mSeg1.totalDistance = 3
    ∧ mSeg1.totalDistance ≠ 0 := by
  have hcp : claimPerimeter mAfterDelete.points mAfterDelete.isClosed = 10 := by
    rw [mAfterDelete_eval]
    norm_num [claimPerimeter, MeasurementSystem.segmentSum,
      MeasurementSystem.closingDistance, dist_eval_5, dist_eval_5b]
  refine ⟨by rw [mAfterDelete_eval], by rw [mAfterDelete_eval], hcp, ?_,
    by rw [mSeg1_eval]; rfl, ?_, ?_⟩
  · rw [mAfterDelete_eval] at hcp ⊢
    rw [hcp]
    norm_num
  · rw [mSeg1_eval]
  · rw [mSeg1_eval]
    norm_num

/-- C2 amended: after any point-mutating operation, the recomputation the
operation triggers (updateMeasurementVisuals) stores
totalDistance = sum of consecutive segment lengths, plus the closing segment
exactly when the measurement is closed AND has at least 3 points — not
whenever it is closed — and it only does so when at least 2 points remain:
below 2 points it is skipped and totalDistance keeps its previous value. The
last three conjuncts record that each of the three mutating operations ends
in exactly this recomputation (the delete under its lock and range guards). -/
theorem perimeter_recompute_amended (m : Measurement) :
    (2 ≤ m.points.length →
      (MeasurementSystem.updateMeasurementVisuals m).totalDistance =
        MeasurementSystem.segmentSum m.points +
          (if m.isClosed = true ∧ 3 ≤ m.points.length
           then MeasurementSystem.closingDistance m.points else 0))
    ∧ (m.points.length < 2 → MeasurementSystem.updateMeasurementVisuals m = m)
    ∧ (∀ p, MeasurementSystem.addPointPipeline m p =
        MeasurementSystem.updateMeasurementVisuals (MeasurementSystem.addPointToMeasurement m p))
    ∧ (∀ (i : Nat) (p : Vector3), MeasurementSystem.movePointPipeline m i p =
        MeasurementSystem.updateMeasurementVisuals { m with points := m.points.set i p })
    ∧ (∀ i : Int, m.isLocked = false → ¬ (i < 0 ∨ (m.points.length : Int) ≤ i) →
        MeasurementSystem.deletePointFromMeasurement m i =
          MeasurementSystem.updateMeasurementVisuals
            { m with points := m.points.eraseIdx i.toNat }) := by
  refine ⟨?_, ?_, fun p => rfl, fun i p => rfl, ?_⟩
  · intro h2
    unfold MeasurementSystem.updateMeasurementVisuals MeasurementSystem.updateMeasurementDistance
    repeat' split
    all_goals first
      | (exfalso; omega)
      | (simp; done)
      | (rename_i hc1 hc2; exact absurd hc1 hc2)
      | (rename_i hc1 hc2; exact absurd hc2 hc1)
  · intro h2
    unfold MeasurementSystem.updateMeasurementVisuals
    rw [if_pos h2]
  · intro i hL hr
    unfold MeasurementSystem.deletePointFromMeasurement
    rw [hL]
    simp only [Bool.false_eq_true, if_false]
    rw [if_neg hr]

/-- Witness for C2 amended, at a 2-point open measurement with a stale
stored totalDistance of 99 (the recomputation overwrites it with 3), and for
the skip branch at a 1-point measurement. -/
theorem perimeter_recompute_amended_witness :
    (2 ≤ (Measurement.mk 1 [⟨0, 0, 0⟩, ⟨3, 0, 0⟩] 0xff4444 false false 99 0).points.length
    ∧ (MeasurementSystem.updateMeasurementVisuals
        (Measurement.mk 1 [⟨0, 0, 0⟩, ⟨3, 0, 0⟩] 0xff4444 false false 99 0)).totalDistance =
      MeasurementSystem.segmentSum
          (Measurement.mk 1 [⟨0, 0, 0⟩, ⟨3, 0, 0⟩] 0xff4444 false false 99 0).points +
        (if (Measurement.mk 1 [⟨0, 0, 0⟩, ⟨3, 0, 0⟩] 0xff4444 false false 99 0).isClosed = true
            ∧ 3 ≤ (Measurement.mk 1 [⟨0, 0, 0⟩, ⟨3, 0, 0⟩] 0xff4444 false false 99 0).points.length
         then MeasurementSystem.closingDistance
           (Measurement.mk 1 [⟨0, 0, 0⟩, ⟨3, 0, 0⟩] 0xff4444 false false 99 0).points else 0))
    ∧ MeasurementSystem.updateMeasurementVisuals
        (Measurement.mk 2 [⟨0, 0, 0⟩] 0xff4444 false false 99 0) =
      Measurement.mk 2 [⟨0, 0, 0⟩] 0xff4444 false false 99 0 :=
  ⟨⟨by simp,
    (perimeter_recompute_amended (Measurement.mk 1 [⟨0, 0, 0⟩, ⟨3, 0, 0⟩] 0xff4444 false false 99 0)).1
      (by simp)⟩,
   (perimeter_recompute_amended (Measurement.mk 2 [⟨0, 0, 0⟩] 0xff4444 false false 99 0)).2.1
     (by simp)⟩

/-- Counterexample to C3 as stated: deleting point 0 of the closed 3-point
3-4-5 triangle leaves 2 points, yet the closed flag is still true after the
recomputation and the stored area is still 6, not unset or 0. -/
theorem closed_delete_claim_counterexample :
    mTriClosed.isClosed = true
    ∧ mTriClosed.points.length = 3
    ∧ mAfterDelete.points.length = 2
    ∧ mAfterDelete.isClosed = true
    ∧ mAfterDelete.area = 6
    ∧ mAfterDelete.area ≠ 0 := by
  refine ⟨by rw [mTriClosed_eval], by rw [mTriClosed_eval]; rfl, by rw [mAfterDelete_eval]; rfl,
    by rw [mAfterDelete_eval], by rw [mAfterDelete_eval], ?_⟩
  rw [mAfterDelete_eval]
  norm_num

/-- C3 amended: deletePointFromMeasurement never modifies the closed flag
(there is no code forcing closed to false), and whenever the delete leaves
fewer than 3 points the stored area is simply retained unchanged by the
recomputation (which recomputes area only for closed measurements with at
least 3 points) — it is not reset to 0. -/
theorem deletePoint_never_clears_closed (m : Measurement) (pointIndex : Int) :
    (MeasurementSystem.deletePointFromMeasurement m pointIndex).isClosed = m.isClosed
    ∧ ((MeasurementSystem.deletePointFromMeasurement m pointIndex).points.length < 3 →
        (MeasurementSystem.deletePointFromMeasurement m pointIndex).area = m.area) := by
  unfold MeasurementSystem.deletePointFromMeasurement
  split
  · exact ⟨rfl, fun _ => rfl⟩
  · split
    · exact ⟨rfl, fun _ => rfl⟩
    · constructor
      · exact (updateMeasurementVisuals_stable_fields _).2.1
      · intro hlen
        rw [(updateMeasurementVisuals_stable_fields _).1] at hlen
        refine (updateMeasurementVisuals_area_stable _ ?_).trans rfl
        intro hcl
        omega

/-- Witness for C3 amended at the concrete closed triangle and index 0. -/
theorem deletePoint_never_clears_closed_witness :
    (MeasurementSystem.deletePointFromMeasurement mTriClosed 0).isClosed = mTriClosed.isClosed
    ∧ (MeasurementSystem.deletePointFromMeasurement mTriClosed 0).area = mTriClosed.area :=
  ⟨(deletePoint_never_clears_closed mTriClosed 0).1,
   (deletePoint_never_clears_closed mTriClosed 0).2
     (by rw [show MeasurementSystem.deletePointFromMeasurement mTriClosed 0 = mAfterDelete
               from rfl, mAfterDelete_eval]; simp)⟩

/-- An open 2-point measurement whose segment lies near the query points
below. -/
def mOpenSeg : Measurement :=
  { id := 1, points := [⟨0, 0, 0⟩, ⟨1, 0, 0⟩], color := 0xff4444, isClosed := false,
    isLocked := false, totalDistance := 1, area := 0 }

/-- A 1-point measurement (no segments at all). -/
def mSinglePt : Measurement :=
  { id := 2, points := [⟨0, 0, 0⟩], color := 0x44ff44, isClosed := false,
    isLocked := false, totalDistance := 0, area := 0 }

/-- A closed triangle in the (x, z) plane that strictly contains the query
point pInside below. -/
def mTriXZ : Measurement :=
  { id := 3, points := [⟨-1, 0, -1⟩, ⟨1, 0, -1⟩, ⟨0, 0, 1⟩], color := 0x4444ff,
    isClosed := true, isLocked := false, totalDistance := 0, area := 0 }

/-- A query point far from every measurement above. -/
def pFar : Vector3 := ⟨10, 10, 10⟩

/-- A query point strictly inside mTriXZ in the (x, z) plane and within 0.5
units of the segment of mOpenSeg. -/
def pInside : Vector3 := ⟨0.2, 0, 0.1⟩

/-- C1 (code bug): Utils.distancePointToLine does not exist in utils.js, so
findEnclosingMeasurement throws a TypeError (modelled as Except.error) as
soon as any measurement with at least 2 points reaches the near-line
distance computation, instead of comparing a minimum distance against the
0.5-unit threshold and returning a link or null; only a collection whose
measurements all have fewer than 2 points reaches the null return. -/
theorem findEnclosing_missing_helper_crash :
    AnnotationSystem.findEnclosingMeasurement pFar [mOpenSeg] = .error ()
    ∧ AnnotationSystem.findEnclosingMeasurement pFar [mSinglePt] = .ok none := by
  constructor
  · rfl
  · rfl

/-- C6 (code bug): with an open measurement ahead of the enclosing closed
triangle in iteration order, the loop evaluates the near-line distance of the
open measurement before ever reaching the triangle and throws (missing
Utils.distancePointToLine), so the inside link is not returned; with the
enclosing closed triangle first, the inside check does return immediately
with relationship inside and distance 0, demonstrating the intended
precedence on the orderings that avoid the crash. -/
theorem inside_precedence_crash :
    AnnotationSystem.findEnclosingMeasurement pInside [mOpenSeg, mTriXZ] = .error ()
    ∧ AnnotationSystem.findEnclosingMeasurement pInside [mTriXZ, mOpenSeg] =
        .ok (some ⟨mTriXZ, .inside, 0⟩) := by
  constructor
  · rfl
  · have hin : Utils.isPointInPolygon pInside mTriXZ.points = true := by
      norm_num [Utils.isPointInPolygon, mTriXZ, pInside, Utils.prevVertexList,
        Utils.inPolyLoop]
    unfold AnnotationSystem.findEnclosingMeasurement AnnotationSystem.findLoop
    rw [if_pos ⟨rfl, by norm_num [mTriXZ], hin⟩]

/-- Specification-side definition following the words of claim C5: the
visibility flag the spec says project returns, computed as
visible = (depth < 1) && (distanceToCamera < 100), with depth the projected
NDC z and distanceToCamera the distance from the point to the camera
position. -/
noncomputable def specVisibleFlag (point : Vector3) (camera : Camera) : Prop :=
  (point.project camera).z < 1 ∧ Utils.calculateDistance point camera.position < 100

/-- Specification-side pixel conversion following the words of claim C5:
normalized device coordinates mapped to pixel coordinates against the
viewport size (x right, y down). -/
noncomputable def specNDCToPixel (ndc : Vector3) (width height : ℝ) : ScreenPos :=
  ⟨(ndc.x * 0.5 + 0.5) * width, (-ndc.y * 0.5 + 0.5) * height⟩

/-- A camera with identity view and projection matrices at the origin. -/
def idCamera : Camera :=
  ⟨Matrix4.identity, Matrix4.identity, ⟨0, 0, 0⟩⟩

/-- Counterexample to C5 as stated: projectToScreen returns no visibility
flag at all. Its output record is identical for a point that the spec's flag
marks visible (at the origin, depth 0 and distance 0) and for a point it
marks invisible (depth 200, distance 200), so no component of the returned
record can equal the claimed visible = (depth < 1) && (distanceToCamera <
100) field. -/
theorem projectToScreen_no_visible_counterexample :
    Utils.projectToScreen ⟨0, 0, 0⟩ idCamera 800 600 =
      Utils.projectToScreen ⟨0, 0, 200⟩ idCamera 800 600
    ∧ specVisibleFlag ⟨0, 0, 0⟩ idCamera
    ∧ ¬ specVisibleFlag ⟨0, 0, 200⟩ idCamera := by
  refine ⟨?_, ⟨?_, ?_⟩, ?_⟩
  · norm_num [Utils.projectToScreen, Vector3.project, Vector3.applyMatrix4,
      idCamera, Matrix4.identity]
  · norm_num [Vector3.project, Vector3.applyMatrix4, idCamera, Matrix4.identity]
  · norm_num [Utils.calculateDistance, Vector3.distanceTo, idCamera, Real.sqrt_zero]
  · intro h
    have hz := h.1
    norm_num [Vector3.project, Vector3.applyMatrix4, idCamera, Matrix4.identity] at hz

/-- C5 amended: projectToScreen applies the camera's view and projection
transforms (with perspective divide) to obtain normalized device
coordinates and converts them to pixel coordinates against the viewport
size, exactly as the spec says, but it returns only the record { x, y }: it
computes no visibility flag (no depth or distance-to-camera culling). -/
theorem projectToScreen_amended (point : Vector3) (camera : Camera)
    (width height : ℝ) :
    Utils.projectToScreen point camera width height =
      specNDCToPixel (point.project camera) width height := rfl

/-- A locked single-point measurement (isLocked is what annotation linking
sets to protect a referenced measurement). -/
def mLockedPt : Measurement :=
  { id := 7, points := [⟨0, 0, 0⟩], color := 0xff4444, isClosed := false, isLocked := true,
    totalDistance := 0, area := 0 }

/-- A measure-mode session holding only the locked measurement. -/
def sLocked : SystemState :=
  { MeasurementSystem.initialState with active := true, measurements := [mLockedPt] }

theorem findClosest_locked_eval :
    MeasurementSystem.findClosestPoint [mLockedPt] ⟨0, 0, 0⟩ 0.1 = some (0, 0) := by
  norm_num [MeasurementSystem.findClosestPoint, mLockedPt, Vector3.distanceTo,
    List.enum, List.enumFrom, Real.sqrt_zero]

/-- C4 (code bug): the Ctrl-drag edit path performs no lock check
(findClosestPoint, startEditing and handleMouseMove in scene.js never read
isLocked), so pressing Ctrl near a point of a locked measurement and moving
the mouse mutates the locked measurement's point, contradicting the rule
that every mutation on a locked measurement is a no-op. -/
theorem locked_measurement_drag_moves_point :
    mLockedPt.isLocked = true
    ∧ ((MeasurementSystem.step
          (MeasurementSystem.step sLocked (.mouseDown true (some ⟨0, 0, 0⟩)))
          (.mouseMove (some ⟨1, 2, 3⟩))).measurements.getD 0 Measurement.default).points =
        [⟨1, 2, 3⟩]
    ∧ ([(⟨1, 2, 3⟩ : Vector3)] ≠ mLockedPt.points) := by
  refine ⟨rfl, ?_, ?_⟩
  · have h1 : MeasurementSystem.step sLocked (.mouseDown true (some ⟨0, 0, 0⟩)) =
        MeasurementSystem.startEditing sLocked 0 0 := by
      simp [MeasurementSystem.step, MeasurementSystem.handleMouseDown,
        findClosest_locked_eval, sLocked, MeasurementSystem.initialState]
    rw [h1]
    simp [MeasurementSystem.step, MeasurementSystem.handleMouseMove,
      MeasurementSystem.startEditing, MeasurementSystem.setMeasurement,
      MeasurementSystem.movePointPipeline, MeasurementSystem.updateMeasurementVisuals,
      sLocked, MeasurementSystem.initialState, mLockedPt]
  · simp [mLockedPt, Vector3.mk.injEq]

/-- The camera-editing invariant of the measure tool: an editing sub-state
implies measure mode is active with orbit controls disabled, and an idle
sub-state implies the controls are enabled. -/
def camInvariant (s : SystemState) : Prop :=
  (s.isEditing = true → s.active = true ∧ s.controlsEnabled = false)
  ∧ (s.isEditing = false → s.controlsEnabled = true)

theorem camInvariant_congr (s s' : SystemState)
    (he : s'.isEditing = s.isEditing) (ha : s'.active = s.active)
    (hc : s'.controlsEnabled = s.controlsEnabled) (h : camInvariant s) :
    camInvariant s' := by
  unfold camInvariant at h ⊢
  rw [he, ha, hc]
  exact h

theorem handleClick_substate (s : SystemState) (hit : Option Vector3) (shiftKey : Bool) :
    (MeasurementSystem.handleClick s hit shiftKey).isEditing = s.isEditing
    ∧ (MeasurementSystem.handleClick s hit shiftKey).active = s.active
    ∧ (MeasurementSystem.handleClick s hit shiftKey).controlsEnabled = s.controlsEnabled := by
  unfold MeasurementSystem.handleClick MeasurementSystem.handleDeletePoint
    MeasurementSystem.setMeasurement MeasurementSystem.createNewMeasurement
  repeat' split
  all_goals simp

theorem handleMouseMove_substate (s : SystemState) (hit : Option Vector3) :
    (MeasurementSystem.handleMouseMove s hit).isEditing = s.isEditing
    ∧ (MeasurementSystem.handleMouseMove s hit).active = s.active
    ∧ (MeasurementSystem.handleMouseMove s hit).controlsEnabled = s.controlsEnabled := by
  unfold MeasurementSystem.handleMouseMove MeasurementSystem.setMeasurement
  repeat' split
  all_goals simp

theorem closeMeasurement_substate (s : SystemState) :
    (MeasurementSystem.closeMeasurement s).isEditing = s.isEditing
    ∧ (MeasurementSystem.closeMeasurement s).active = s.active
    ∧ (MeasurementSystem.closeMeasurement s).controlsEnabled = s.controlsEnabled := by
  unfold MeasurementSystem.closeMeasurement MeasurementSystem.setMeasurement
  repeat' split
  all_goals simp

theorem handleMouseDown_cases (s : SystemState) (ctrlKey : Bool) (hit : Option Vector3) :
    MeasurementSystem.handleMouseDown s ctrlKey hit = s
    ∨ ∃ mi pi, MeasurementSystem.handleMouseDown s ctrlKey hit =
        MeasurementSystem.startEditing s mi pi := by
  unfold MeasurementSystem.handleMouseDown
  repeat' split
  all_goals first
    | exact Or.inl rfl
    | (rename_i mp; exact Or.inr ⟨mp.1, mp.2, rfl⟩)
    | exact Or.inr ⟨_, _, rfl⟩

theorem step_camInvariant (s : SystemState) (e : MeasureEvent)
    (h : camInvariant s) : camInvariant (MeasurementSystem.step s e) := by
  cases e with
  | click hit shiftKey =>
      simp only [MeasurementSystem.step]
      split
      · exact camInvariant_congr s _ (handleClick_substate s hit shiftKey).1
          (handleClick_substate s hit shiftKey).2.1
          (handleClick_substate s hit shiftKey).2.2 h
      · exact h
  | mouseDown ctrlKey hit =>
      simp only [MeasurementSystem.step]
      split
      · rename_i hg
        rcases handleMouseDown_cases s ctrlKey hit with hcase | ⟨mi, pi, hcase⟩
        · rw [hcase]; exact h
        · rw [hcase]
          refine ⟨fun _ => ⟨?_, rfl⟩,
            fun hfalse => by simp [MeasurementSystem.startEditing] at hfalse⟩
          simpa [MeasurementSystem.startEditing] using hg.1
      · exact h
  | mouseMove hit =>
      simp only [MeasurementSystem.step]
      split
      · exact camInvariant_congr s _ (handleMouseMove_substate s hit).1
          (handleMouseMove_substate s hit).2.1
          (handleMouseMove_substate s hit).2.2 h
      · exact h
  | mouseUp =>
      simp only [MeasurementSystem.step]
      split
      · unfold MeasurementSystem.handleMouseUp
        split
        · exact ⟨fun hfalse => by simp [MeasurementSystem.stopEditing] at hfalse,
            fun _ => rfl⟩
        · exact h
      · exact h
  | activateMode =>
      refine ⟨fun he => ⟨rfl, ?_⟩, fun he => ?_⟩
      · exact (h.1 he).2
      · exact h.2 he
  | deactivateMode =>
      exact ⟨fun hfalse => by simp [MeasurementSystem.step, MeasurementSystem.deactivate,
          MeasurementSystem.stopEditing] at hfalse,
        fun _ => rfl⟩
  | closeCurrent =>
      exact camInvariant_congr s _ (closeMeasurement_substate s).1
        (closeMeasurement_substate s).2.1 (closeMeasurement_substate s).2.2 h

theorem foldl_camInvariant (events : List MeasureEvent) :
    ∀ s : SystemState, camInvariant s →
      camInvariant (events.foldl MeasurementSystem.step s) := by
  induction events with
  | nil => exact fun s h => h
  | cons e rest ih =>
      intro s h
      exact ih _ (step_camInvariant s e h)

theorem run_camInvariant (events : List MeasureEvent) :
    camInvariant (MeasurementSystem.run events) :=
  foldl_camInvariant events MeasurementSystem.initialState
    ⟨fun hfalse => by simp [MeasurementSystem.initialState] at hfalse, fun _ => rfl⟩

/-- C9: in every reachable state of the measure tool, being in the editing
sub-state implies the camera-orbit controls are disabled (entering editing
disables them), being idle implies they are enabled (the system is never out
of the editing sub-state with the controls still disabled by it), and a
pointer release always lands in the idle sub-state with the controls
re-enabled, whether or not the drag changed anything. -/
theorem editing_camera_exclusive (events : List MeasureEvent) :
    ((MeasurementSystem.run events).isEditing = true →
        (MeasurementSystem.run events).controlsEnabled = false)
    ∧ ((MeasurementSystem.run events).isEditing = false →
        (MeasurementSystem.run events).controlsEnabled = true)
    ∧ (MeasurementSystem.step (MeasurementSystem.run events) .mouseUp).isEditing = false
    ∧ (MeasurementSystem.step (MeasurementSystem.run events) .mouseUp).controlsEnabled = true := by
  have h := run_camInvariant events
  refine ⟨fun he => (h.1 he).2, h.2, ?_⟩
  cases hE : (MeasurementSystem.run events).isEditing with
  | false =>
      have hg : ¬ ((MeasurementSystem.run events).active = true
          ∧ (MeasurementSystem.run events).isEditing = true) := by
        rw [hE]; simp
      constructor
      · simp only [MeasurementSystem.step]
        rw [if_neg hg]
        exact hE
      · simp only [MeasurementSystem.step]
        rw [if_neg hg]
        exact h.2 hE
  | true =>
      have hg : (MeasurementSystem.run events).active = true
          ∧ (MeasurementSystem.run events).isEditing = true := ⟨(h.1 hE).1, hE⟩
      constructor
      · simp only [MeasurementSystem.step]
        rw [if_pos hg]
        unfold MeasurementSystem.handleMouseUp
        rw [if_pos hE]
        rfl
      · simp only [MeasurementSystem.step]
        rw [if_pos hg]
        unfold MeasurementSystem.handleMouseUp
        rw [if_pos hE]
        rfl

/-- Witness for C9 after a concrete event run. -/
theorem editing_camera_exclusive_witness :
    (MeasurementSystem.run [MeasureEvent.activateMode]).isEditing = false
    ∧ (MeasurementSystem.run [MeasureEvent.activateMode]).controlsEnabled = true
    ∧ (MeasurementSystem.step (MeasurementSystem.run [MeasureEvent.activateMode])
        .mouseUp).controlsEnabled = true :=
  ⟨rfl, (editing_camera_exclusive [MeasureEvent.activateMode]).2.1 rfl,
   (editing_camera_exclusive [MeasureEvent.activateMode]).2.2.2⟩

end Inspector3D
